import Mathlib

/-!
# Verification of `src/MarlinSimulator/renderer/renderer.h`

A shallow embedding of the renderer subsystem (`namespace renderer` in the
C++ source): glm vectors/matrices are modelled column-major over exact
rationals, the OpenGL API is modelled as an explicit state (`GLState`)
threaded through every operation together with an environment of driver
oracles (`GLEnv`), and each C++ class becomes a Lean structure with its
member functions as state-passing functions.
-/

set_option autoImplicit false

namespace renderer

/-! ## Exact model of glm vectors, quaternions and column-major matrices -/

/-- glm::vec3, with exact rational components in place of float. -/
@[ext] structure Vec3 where
  x : ℚ
  y : ℚ
  z : ℚ
  deriving DecidableEq

/-- glm::vec4, with exact rational components in place of float. -/
@[ext] structure Vec4 where
  x : ℚ
  y : ℚ
  z : ℚ
  w : ℚ
  deriving DecidableEq

/-- glm::quat (w, x, y, z). The glm default constructor gives the identity
quaternion `(1,0,0,0)`. -/
@[ext] structure Quat where
  w : ℚ
  x : ℚ
  y : ℚ
  z : ℚ
  deriving DecidableEq

instance : Add Vec4 := ⟨fun a b => ⟨a.x + b.x, a.y + b.y, a.z + b.z, a.w + b.w⟩⟩

instance : SMul ℚ Vec4 := ⟨fun c v => ⟨c * v.x, c * v.y, c * v.z, c * v.w⟩⟩

@[simp] theorem Vec4.add_def (a b : Vec4) :
    a + b = ⟨a.x + b.x, a.y + b.y, a.z + b.z, a.w + b.w⟩ := rfl

@[simp] theorem Vec4.smul_def (c : ℚ) (v : Vec4) :
    c • v = ⟨c * v.x, c * v.y, c * v.z, c * v.w⟩ := rfl

/-- glm::mat4, stored as four columns exactly as glm stores it
(`m[i]` is column `i`). -/
@[ext] structure Mat4 where
  c0 : Vec4
  c1 : Vec4
  c2 : Vec4
  c3 : Vec4
  deriving DecidableEq

/-- Model of `glm::mat4(1.0)`: the identity matrix. -/
def Mat4.identity : Mat4 :=
  ⟨⟨1, 0, 0, 0⟩, ⟨0, 1, 0, 0⟩, ⟨0, 0, 1, 0⟩, ⟨0, 0, 0, 1⟩⟩

/-- Model of `glm::operator*(mat4, vec4)`: `m[0]*v.x + m[1]*v.y + m[2]*v.z + m[3]*v.w`. -/
def Mat4.mulVec (m : Mat4) (v : Vec4) : Vec4 :=
  v.x • m.c0 + v.y • m.c1 + v.z • m.c2 + v.w • m.c3

/-- Model of `glm::operator*(mat4, mat4)`: each result column is the left matrix
applied to the corresponding column of the right matrix. -/
def Mat4.mul (m n : Mat4) : Mat4 :=
  ⟨m.mulVec n.c0, m.mulVec n.c1, m.mulVec n.c2, m.mulVec n.c3⟩

instance : Mul Mat4 := ⟨Mat4.mul⟩

@[simp] theorem Mat4.mul_def (m n : Mat4) :
    m * n = ⟨m.mulVec n.c0, m.mulVec n.c1, m.mulVec n.c2, m.mulVec n.c3⟩ := rfl

/-- Model of `glm::translate(m, v)`: copies `m` and replaces the last column by
`m[0]*v.x + m[1]*v.y + m[2]*v.z + m[3]`. -/
def glmTranslate (m : Mat4) (v : Vec3) : Mat4 :=
  { m with c3 := v.x • m.c0 + v.y • m.c1 + v.z • m.c2 + m.c3 }

/-- Model of `glm::scale(m, v)`: scales the first three columns of `m` by the
components of `v` and keeps the last column. -/
def glmScale (m : Mat4) (v : Vec3) : Mat4 :=
  ⟨v.x • m.c0, v.y • m.c1, v.z • m.c2, m.c3⟩

/-- Model of `glm::mat4_cast(q)`: the rotation matrix of a quaternion, embedded in a
4x4 matrix (glm `mat3_cast` formula, column-major). -/
def mat4_cast (q : Quat) : Mat4 :=
  ⟨⟨1 - 2 * (q.y * q.y + q.z * q.z), 2 * (q.x * q.y + q.w * q.z),
    2 * (q.x * q.z - q.w * q.y), 0⟩,
   ⟨2 * (q.x * q.y - q.w * q.z), 1 - 2 * (q.x * q.x + q.z * q.z),
    2 * (q.y * q.z + q.w * q.x), 0⟩,
   ⟨2 * (q.x * q.z + q.w * q.y), 2 * (q.y * q.z - q.w * q.x),
    1 - 2 * (q.x * q.x + q.y * q.y), 0⟩,
   ⟨0, 0, 0, 1⟩⟩

/-- The matrix `translate(v)` of the claim: translation from the identity. -/
def translateMat (v : Vec3) : Mat4 := glmTranslate Mat4.identity v

/-- The matrix `scale(v)` of the claim: scaling from the identity. -/
def scaleMat (v : Vec3) : Mat4 := glmScale Mat4.identity v

theorem glmTranslate_eq_mul (m : Mat4) (v : Vec3) :
    glmTranslate m v = m * translateMat v := by
  ext <;>
    simp [glmTranslate, translateMat, Mat4.identity, Mat4.mulVec]

theorem glmScale_eq_mul (m : Mat4) (v : Vec3) :
    glmScale m v = m * scaleMat v := by
  ext <;>
    simp [glmScale, scaleMat, glmTranslate, Mat4.identity, Mat4.mulVec]

/-! ## Model of the OpenGL interface

The GL driver is modelled as an explicit state `GLState` (name allocation,
live buffer/vertex-array/shader objects, the current program, the text
written to `stderr`, and a trace of issued GL calls) together with an
environment `GLEnv` of driver oracles (compilation outcome, info logs,
uniform locations).  Name allocation uses a single counter, so every
returned name is fresh and non-zero, as GL guarantees. -/

def GL_FLOAT : Nat := 5126
def GL_STATIC_DRAW : Nat := 35044
def GL_VERTEX_SHADER : Nat := 35633
def GL_FRAGMENT_SHADER : Nat := 35632
def GL_GEOMETRY_SHADER : Nat := 36313

/-- Model of `Primitive`, from the repository's `gl.h` (declared outside `src/`).
Modelled from the spec: "a primitive topology (e.g. triangles, lines,
points)". -/
inductive Primitive where
  | TRIANGLES
  | TRIANGLE_STRIP
  | LINES
  | POINTS
  deriving DecidableEq

/-- One GL call as recorded in the trace. -/
inductive GLEvent where
  | useProgram (program : Nat)
  | uniformMvp (location : Nat) (value : Mat4)
  | drawArrays (mode : Primitive) (first count : Nat)
  | attachShader (program shader : Nat)
  | bindAttribLocation (program index : Nat) (name : String)
  | linkProgram (program : Nat)
  | deleteShader (shader : Nat)
  | bindVertexArray (array : Nat)
  | bindBuffer (buffer : Nat)
  | enableVertexAttribArray (index : Nat)
  | vertexAttribPointer (index size typeEnum stride offset : Nat)
  deriving DecidableEq

/-- The explicit GL driver state. -/
structure GLState where
  next : Nat := 0
  bufLive : List Nat := []
  vaoLive : List Nat := []
  shaderLive : List Nat := []
  programLive : List Nat := []
  curProgram : Nat := 0
  stderrLog : String := ""
  events : List GLEvent := []
  deriving DecidableEq

def GLState.init : GLState := {}

/-- Allocate a fresh GL name; always non-zero. -/
def GLState.fresh (s : GLState) : Nat × GLState :=
  (s.next + 1, { s with next := s.next + 1 })

def GLState.addEvent (e : GLEvent) (s : GLState) : GLState :=
  { s with events := s.events ++ [e] }

/-- Model of `glGenVertexArrays(1, &id)`. -/
def glGenVertexArrays (s : GLState) : Nat × GLState :=
  let (n, s) := s.fresh
  (n, { s with vaoLive := s.vaoLive ++ [n] })

/-- Model of `glGenBuffers(1, &id)`. -/
def glGenBuffers (s : GLState) : Nat × GLState :=
  let (n, s) := s.fresh
  (n, { s with bufLive := s.bufLive ++ [n] })

/-- Model of `glDeleteBuffers(1, &id)`: deletes a *buffer object*; a name that is not
a live buffer object (for example a vertex-array name, or 0) is silently
ignored, per the GL specification. -/
def glDeleteBuffers (n : Nat) (s : GLState) : GLState :=
  { s with bufLive := s.bufLive.erase n }

/-- Model of `glCreateShader`. -/
def glCreateShader (s : GLState) : Nat × GLState :=
  let (n, s) := s.fresh
  (n, { s with shaderLive := s.shaderLive ++ [n] })

/-- Model of `glDeleteShader`. -/
def glDeleteShader (n : Nat) (s : GLState) : GLState :=
  GLState.addEvent (.deleteShader n) { s with shaderLive := s.shaderLive.erase n }

/-- Model of `glCreateProgram`. -/
def glCreateProgram (s : GLState) : Nat × GLState :=
  let (n, s) := s.fresh
  (n, { s with programLive := s.programLive ++ [n] })

/-- Model of `glUseProgram`: mutates the global "current program" binding. -/
def glUseProgram (p : Nat) (s : GLState) : GLState :=
  GLState.addEvent (.useProgram p) { s with curProgram := p }

/-- Driver oracles: whether a source compiles for a given stage, the
compiler's info log for a failed source, and uniform locations. -/
structure GLEnv where
  compileOk : Nat → String → Bool
  infoLog : Nat → String → String
  uniformLoc : Nat → String → Nat

/-! ## ShaderProgram -/

namespace ShaderProgram

/-- Model of `ShaderProgram::loadShader`: creates a shader object, compiles the
source; on failure writes the driver's info log to `stderr`, deletes the
shader object and returns 0; on success returns the (non-zero) shader
object name. -/
def loadShader (env : GLEnv) (shader_type : Nat) (shader_string : String)
    (s : GLState) : Nat × GLState :=
  let cr := glCreateShader s
  let shader_id := cr.1
  let s := cr.2
  if env.compileOk shader_type shader_string then (shader_id, s)
  else
    let s := { s with stderrLog := s.stderrLog ++ env.infoLog shader_type shader_string }
    (0, glDeleteShader shader_id s)

/-- Model of `ShaderProgram::loadProgram`: compiles each non-null stage via
`loadShader`, then unconditionally creates a program object, attaches the
stage handles (0 for a failed stage), binds the attribute locations, links
and activates the program, deletes the non-zero stage objects, and returns
the program name obtained from `glCreateProgram`. -/
def loadProgram (env : GLEnv) (vertex_string fragment_string : Option String)
    (geometry_string : Option String) (s : GLState) : Nat × GLState :=
  let vres :=
    match vertex_string with
    | some str => loadShader env GL_VERTEX_SHADER str s
    | none => (0, s)
  let vertex_shader := vres.1
  let s := vres.2
  let fres :=
    match fragment_string with
    | some str => loadShader env GL_FRAGMENT_SHADER str s
    | none => (0, s)
  let fragment_shader := fres.1
  let s := fres.2
  let gres :=
    match geometry_string with
    | some str => loadShader env GL_GEOMETRY_SHADER str s
    | none => (0, s)
  let geometry_shader := gres.1
  let s := gres.2
  let pres := glCreateProgram s
  let shader_program := pres.1
  let s := pres.2
  let s := GLState.addEvent (.attachShader shader_program vertex_shader) s
  let s := GLState.addEvent (.attachShader shader_program fragment_shader) s
  let s :=
    if geometry_shader ≠ 0 then
      GLState.addEvent (.attachShader shader_program geometry_shader) s
    else s
  let s := GLState.addEvent (.bindAttribLocation shader_program 0 "i_position") s
  let s := GLState.addEvent (.bindAttribLocation shader_program 2 "i_color") s
  let s := GLState.addEvent (.linkProgram shader_program) s
  let s := glUseProgram shader_program s
  let s := if vertex_shader ≠ 0 then glDeleteShader vertex_shader s else s
  let s := if fragment_shader ≠ 0 then glDeleteShader fragment_shader s else s
  let s := if geometry_shader ≠ 0 then glDeleteShader geometry_shader s else s
  (shader_program, s)

end ShaderProgram

/-! ## Vertex layout descriptors and vertex record types -/

/-- Model of `data_descriptor_element_t`, from the repository's `gl.h` (declared
outside `src/`). Modelled from the spec: an attribute descriptor
"(element count, numeric kind, byte length)". -/
structure data_descriptor_element_t where
  elements : Nat
  gl_enum : Nat
  length : Nat
  deriving DecidableEq

/-- The static layout of a vertex record type: its attribute descriptor
list (`ElementType::descriptor`) and `sizeof(ElementType)`, both of which
`Buffer<ElementType>::generate` reads from the type. -/
structure Layout where
  descriptor : List data_descriptor_element_t
  sizeofElem : Nat
  deriving DecidableEq

/-- Model of `vertex_data_t`: position + normal + color. -/
structure vertex_data_t where
  position : Vec3
  normal : Vec3
  color : Vec4
  deriving DecidableEq

/-- The descriptor of `vertex_data_t`: a float vec3, a float vec3 and a
float vec4 (12 + 12 + 16 bytes). -/
def vertex_data_t.layout : Layout :=
  ⟨[⟨3, GL_FLOAT, 12⟩, ⟨3, GL_FLOAT, 12⟩, ⟨4, GL_FLOAT, 16⟩], 40⟩

/-! ## Buffer -/

/-- The state of a `Buffer<ElementType>` (fields of `BufferBase` plus the
private `m_data`).  `gpu_data` models the contents of the GPU-side store
written by `glBufferData` during `upload()` (the std::mutex member is not
modelled; no operation of the source takes it). -/
structure BufState (V : Type) where
  m_vao : Nat := 0
  m_vbo : Nat := 0
  m_geometry_offset : Nat := 0
  m_storage_hint : Nat := GL_STATIC_DRAW
  m_geometry_type : Primitive := Primitive.TRIANGLES
  m_dirty : Bool := true
  m_generated : Bool := false
  m_data : List V := []
  gpu_data : List V := []

namespace Buffer

variable {V : Type}

/-- Model of `Buffer<ElementType>::create()`: a fresh buffer (all defaults). -/
def create : BufState V := {}

/-- The attribute-setup loop of `generate()`: walks the descriptor,
enabling attribute slot `index` and describing it at byte `offset` with
stride `sizeof(ElementType)`. -/
def attribLoop (stride : Nat) :
    List data_descriptor_element_t → Nat → Nat → GLState → GLState
  | [], _, _, s => s
  | attrib :: rest, index, offset, s =>
    attribLoop stride rest (index + 1) (offset + attrib.length)
      (GLState.addEvent (.vertexAttribPointer index attrib.elements attrib.gl_enum stride offset)
        (GLState.addEvent (.enableVertexAttribArray index) s))

/-- Model of `Buffer::generate()`: allocates a vertex array and a buffer object,
binds them, wires the attribute layout, and sets `m_generated`. -/
def generate (L : Layout) (b : BufState V) (s : GLState) : BufState V × GLState :=
  let vaoRes := glGenVertexArrays s
  let vao := vaoRes.1
  let vboRes := glGenBuffers vaoRes.2
  let vbo := vboRes.1
  let s := GLState.addEvent (.bindVertexArray vao) vboRes.2
  let s := GLState.addEvent (.bindBuffer vbo) s
  let s := attribLoop L.sizeofElem L.descriptor 0 0 s
  ({ b with m_vao := vao, m_vbo := vbo, m_generated := true }, s)

/-- Model of `Buffer::destroy()`: passes each non-zero handle to `glDeleteBuffers`
and zeroes both handles.  Note, as in the source: `m_generated` is *not*
reset, and the vertex-array handle is passed to the buffer-deletion entry
point. -/
def destroy (b : BufState V) (s : GLState) : BufState V × GLState :=
  let s := if b.m_vbo ≠ 0 then glDeleteBuffers b.m_vbo s else s
  let s := if b.m_vao ≠ 0 then glDeleteBuffers b.m_vao s else s
  ({ b with m_vbo := 0, m_vao := 0 }, s)

/-- Model of `Buffer::bind()`: generates on first use (guarded by `m_generated`),
fails if either handle is zero, otherwise binds both and succeeds. -/
def bind (L : Layout) (b : BufState V) (s : GLState) : Bool × BufState V × GLState :=
  let bs : BufState V × GLState := if b.m_generated = false then generate L b s else (b, s)
  let b := bs.1
  let s := bs.2
  if b.m_vao = 0 ∨ b.m_vbo = 0 then (false, b, s)
  else
    let s := GLState.addEvent (.bindVertexArray b.m_vao) s
    let s := GLState.addEvent (.bindBuffer b.m_vbo) s
    (true, b, s)

/-- Model of `Buffer::upload()`: if dirty, `glBufferData` replaces the whole GPU
copy with `m_data` and the flag is cleared; otherwise nothing happens. -/
def upload (b : BufState V) : BufState V :=
  if b.m_dirty then { b with gpu_data := b.m_data, m_dirty := false } else b

/-- Model of `Buffer::render()`: bind (generating if needed); on success upload if
dirty and issue one draw call over `m_data.size()` vertices. -/
def render (L : Layout) (b : BufState V) (s : GLState) : BufState V × GLState :=
  match bind L b s with
  | (true, b, s) =>
    let b := upload b
    (b, GLState.addEvent (.drawArrays b.m_geometry_type b.m_geometry_offset b.m_data.length) s)
  | (false, b, s) => (b, s)

/-- Model of `Buffer::data()`: hands out a mutable reference to `m_data`, setting
`m_dirty` at the moment of the call; the caller's subsequent in-place
mutation is modelled by the function `f` it applies through the
reference. -/
def data (f : List V → List V) (b : BufState V) : BufState V :=
  { b with m_dirty := true, m_data := f b.m_data }

/-- Model of `Buffer::cdata()`. -/
def cdata (b : BufState V) : List V := b.m_data

/-- Model of `Buffer::size()`. -/
def size (b : BufState V) : Nat := b.m_data.length

/-- Model of `Buffer::add_vertex(elem)`. -/
def add_vertex (elem : V) (b : BufState V) : BufState V :=
  { b with m_dirty := true, m_data := b.m_data ++ [elem] }

end Buffer

/-- One client-visible buffer operation, for stating the dirty-flag
discipline over arbitrary interleavings. -/
inductive BufOp (V : Type) where
  | mutate (f : List V → List V)
  | addVertex (v : V)
  | upload

/-- The effect of one `BufOp` on the buffer state. -/
def BufOp.step {V : Type} : BufOp V → BufState V → BufState V
  | .mutate f, b => Buffer.data f b
  | .addVertex v, b => Buffer.add_vertex v b
  | .upload, b => Buffer.upload b

/-! ## The heterogeneous buffer list of a Mesh

`Mesh::m_buffer` is a `std::vector<std::shared_ptr<BufferBase>>`: the
element type of each buffer is erased.  We model the closed set of element
types by a tag; `point_data_t` stands for any second vertex record type a
client may attach (the surrounding repository has several). -/

/-- A second vertex record type (position + color), standing for any other
element type attachable to a mesh. -/
structure point_data_t where
  position : Vec3
  color : Vec4
  deriving DecidableEq

def point_data_t.layout : Layout :=
  ⟨[⟨3, GL_FLOAT, 12⟩, ⟨4, GL_FLOAT, 16⟩], 28⟩

/-- The tag of a vertex record type. -/
inductive TypeTag where
  | vertex_data
  | point_data
  deriving DecidableEq

/-- The vertex record type a tag stands for. -/
def TypeTag.Elem : TypeTag → Type
  | .vertex_data => vertex_data_t
  | .point_data => point_data_t

/-- The static layout of the tagged type. -/
def TypeTag.layout : TypeTag → Layout
  | .vertex_data => vertex_data_t.layout
  | .point_data => point_data_t.layout

/-- An element of `m_buffer`: a `shared_ptr<BufferBase>` whose pointee is a
`Buffer<Elem tag>`. -/
structure UBuf where
  tag : TypeTag
  state : BufState tag.Elem

/-- Virtual dispatch of `BufferBase::render()`. -/
def UBuf.render (u : UBuf) (s : GLState) : UBuf × GLState :=
  let bs := Buffer.render u.tag.layout u.state s
  ({ u with state := bs.1 }, bs.2)

/-- Virtual dispatch of `BufferBase::destroy()`. -/
def UBuf.destroy (u : UBuf) (s : GLState) : UBuf × GLState :=
  let bs := Buffer.destroy u.state s
  ({ u with state := bs.1 }, bs.2)

/-! ## Mesh -/

/-- The state of a `Mesh` (the std::mutex member is not modelled; no
operation of the source takes it). -/
structure Mesh where
  m_transform : Mat4 := Mat4.identity
  m_origin : Vec3 := ⟨0, 0, 0⟩
  m_position : Vec3 := ⟨0, 0, 0⟩
  m_scale : Vec3 := ⟨1, 1, 1⟩
  m_rotation : Quat := ⟨1, 0, 0, 0⟩
  m_visible : Bool := true
  m_transform_dirty : Bool := true
  m_shader_dirty : Bool := true
  m_delete : Bool := false
  m_buffer : List UBuf := []
  m_shader_program : Nat := 0
  m_shader_index_mvp : Nat := 0

namespace Mesh

/-- Model of `Mesh::build_transform()`: translate by `m_position`, multiply by the
quaternion's rotation matrix, scale by `m_scale`, then translate by
`m_origin` — each step through the corresponding glm call. -/
def build_transform (m : Mesh) : Mesh :=
  let t := glmTranslate Mat4.identity m.m_position
  let t := t * mat4_cast m.m_rotation
  let t := glmScale t m.m_scale
  let t := glmTranslate t m.m_origin
  { m with m_transform := t }

/-- Model of `Mesh::update_shader_locations()`: caches
`glGetUniformLocation(m_shader_program, "u_mvp")`. -/
def update_shader_locations (env : GLEnv) (m : Mesh) : Mesh :=
  { m with m_shader_index_mvp := env.uniformLoc m.m_shader_program "u_mvp" }

/-- Model of `Mesh::set_shader_program(program)`: assigns the handle.  Note, as in
the source: no dirty flag is touched. -/
def set_shader_program (program : Nat) (m : Mesh) : Mesh :=
  { m with m_shader_program := program }

/-- The loop `for (auto buffer : m_buffer) buffer->render();`. -/
def renderBufList : List UBuf → GLState → List UBuf × GLState
  | [], s => ([], s)
  | u :: rest, s =>
    ((u.render s).1 :: (renderBufList rest (u.render s).2).1,
     (renderBufList rest (u.render s).2).2)

/-- Model of `Mesh::render(global_transform)`: returns unchanged if not visible;
otherwise refreshes the transform cache and the uniform-location cache if
their dirty flags are set (clearing them), activates the shader, uploads
`global_transform * m_transform` to the mvp uniform, and renders every
buffer in order. -/
def render (env : GLEnv) (global_transform : Mat4) (m : Mesh) (s : GLState) :
    Mesh × GLState :=
  if m.m_visible = false then (m, s)
  else
    let m := if m.m_transform_dirty then { m.build_transform with m_transform_dirty := false } else m
    let m := if m.m_shader_dirty then { m.update_shader_locations env with m_shader_dirty := false } else m
    let s := glUseProgram m.m_shader_program s
    let s := GLState.addEvent (.uniformMvp m.m_shader_index_mvp (global_transform * m.m_transform)) s
    let bs := renderBufList m.m_buffer s
    ({ m with m_buffer := bs.1 }, bs.2)

/-- The loop `for (auto buffer : m_buffer) buffer->destroy();`. -/
def destroyBufList : List UBuf → GLState → List UBuf × GLState
  | [], s => ([], s)
  | u :: rest, s =>
    ((u.destroy s).1 :: (destroyBufList rest (u.destroy s).2).1,
     (destroyBufList rest (u.destroy s).2).2)

/-- Model of `Mesh::free_gpu_resources()`: destroys every attached buffer. -/
def free_gpu_resources (m : Mesh) (s : GLState) : Mesh × GLState :=
  let bs := destroyBufList m.m_buffer s
  ({ m with m_buffer := bs.1 }, bs.2)

/-- Model of `Mesh::create<VertexType>(buffer)`: a fresh mesh holding the one given
buffer. -/
def create (b : UBuf) : Mesh :=
  { m_buffer := [b] }

set_option linter.unusedVariables false in
/-- Model of `Mesh::buffer<VertexType>()`:
`reinterpret_pointer_cast<Buffer<VertexType>>(m_buffer.back())` — returns
the last attached buffer unchanged, with no runtime check relating the
requested `VertexType` to the buffer's actual element type (the C++ call
on an empty list is undefined behaviour; it is modelled as `none`). -/
def buffer (requested : TypeTag) (m : Mesh) : Option UBuf :=
  m.m_buffer.getLast?

end Mesh

/-! ## Renderer -/

/-- Model of `Renderer::MAX_BUFFER_SIZE` (declared, never read by any operation). -/
def Renderer.MAX_BUFFER_SIZE : Nat := 100000

/-- The `std::remove_if`/`erase` pass of `Renderer::render`: visits the
owned meshes in order; a mesh whose `m_delete` flag is set has its GPU
resources freed and is dropped, every other mesh is kept (the predicate has
no side effect on kept meshes). -/
def Renderer.removeDeleted : List Mesh → GLState → List Mesh × GLState
  | [], s => ([], s)
  | m :: rest, s =>
    if m.m_delete then Renderer.removeDeleted rest (Mesh.free_gpu_resources m s).2
    else
      (m :: (Renderer.removeDeleted rest s).1, (Renderer.removeDeleted rest s).2)

/-- The render loop of `Renderer::render`: renders each mesh in order with
the same global transform. -/
def Renderer.renderMeshes (env : GLEnv) (g : Mat4) :
    List Mesh → GLState → List Mesh × GLState
  | [], s => ([], s)
  | m :: rest, s =>
    ((Mesh.render env g m s).1
       :: (Renderer.renderMeshes env g rest (Mesh.render env g m s).2).1,
     (Renderer.renderMeshes env g rest (Mesh.render env g m s).2).2)

/-- Model of `Renderer::render(global_transform)`: first erase the delete-flagged
meshes (freeing their GPU resources), then render the survivors in order. -/
def Renderer.render (env : GLEnv) (g : Mat4) (m_mesh : List Mesh) (s : GLState) :
    List Mesh × GLState :=
  Renderer.renderMeshes env g (Renderer.removeDeleted m_mesh s).1
    (Renderer.removeDeleted m_mesh s).2

/-- The cumulative effect of freeing a list of meshes in order (used to
state what `removeDeleted` does to the GL state). -/
def Renderer.freeDeleted : List Mesh → GLState → GLState
  | [], s => s
  | m :: rest, s => Renderer.freeDeleted rest (Mesh.free_gpu_resources m s).2

/-! ## Concrete instances used by counterexamples and witnesses -/

/-- A well-behaved driver: everything compiles, empty logs. -/
def envSimple : GLEnv := ⟨fun _ _ => true, fun _ _ => "", fun _ _ => 1⟩

/-- A driver on which every compile fails with a non-empty diagnostic
(as happens for a syntactically invalid source). -/
def envFail : GLEnv := ⟨fun _ _ => false, fun _ _ => "0:1: error: syntax error", fun _ _ => 0⟩

/-- A concrete vertex record. -/
def vd0 : vertex_data_t := ⟨⟨0, 0, 0⟩, ⟨0, 0, 0⟩, ⟨0, 0, 0, 0⟩⟩

/-- The text one stage contributes to `stderr` during `loadProgram`: empty
when the stage is absent or compiles, the driver's info log otherwise. -/
def stageLog (env : GLEnv) (t : Nat) : Option String → String
  | some str => if env.compileOk t str then "" else env.infoLog t str
  | none => ""

/-- A mesh whose visible flag is false (all other fields default). -/
def meshInvisible : Mesh := { m_visible := false }

/-- A mesh whose shader-dirty flag has been cleared by a previous render. -/
def meshShaderClean : Mesh := { m_shader_dirty := false }

/-- A fresh `Buffer<vertex_data_t>` wrapped as a `shared_ptr<BufferBase>`. -/
def bufVD : UBuf := ⟨.vertex_data, Buffer.create⟩

/-- A fresh `Buffer<point_data_t>` wrapped as a `shared_ptr<BufferBase>`. -/
def bufPD : UBuf := ⟨.point_data, Buffer.create⟩

/-- A mesh holding two buffers of different element types, the
`point_data_t` one attached last. -/
def meshTwoBufs : Mesh := { m_buffer := [bufVD, bufPD] }

/-- A freshly generated `Buffer<vertex_data_t>` with its GL state. -/
def bufGenEx : BufState vertex_data_t × GLState :=
  Buffer.generate vertex_data_t.layout Buffer.create GLState.init

/-- The generated buffer of `bufGenEx` immediately after `destroy()`. -/
def bufDestroyedEx : BufState vertex_data_t × GLState :=
  Buffer.destroy bufGenEx.1 bufGenEx.2

/-! ## Theorems -/

/-- C5: `build_transform()` composes exactly
`translate(position) * rotate(rotation) * scale(scale) * translate(origin)`,
the origin translation applied last (after scaling). -/
theorem build_transform_c5 (m : Mesh) :
    (Mesh.build_transform m).m_transform =
      translateMat m.m_position * mat4_cast m.m_rotation * scaleMat m.m_scale *
        translateMat m.m_origin := by
  show glmTranslate (glmScale (glmTranslate Mat4.identity m.m_position *
      mat4_cast m.m_rotation) m.m_scale) m.m_origin = _
  rw [glmScale_eq_mul, glmTranslate_eq_mul]
  rfl

theorem foldl_add_vertex_data {V : Type} (xs : List V) (b : BufState V) :
    (xs.foldl (fun b v => Buffer.add_vertex v b) b).m_data = b.m_data ++ xs := by
  induction xs generalizing b with
  | nil => simp
  | cons x xs ih =>
    rw [List.foldl_cons, ih]
    simp [Buffer.add_vertex]

/-- C8: appending N records one by one to a fresh buffer and reading the
sequence back through `cdata()` yields the same records in the same
order. -/
theorem add_vertex_roundtrip_c8 {V : Type} (xs : List V) :
    Buffer.cdata (xs.foldl (fun b v => Buffer.add_vertex v b) Buffer.create) = xs := by
  simp [Buffer.cdata, foldl_add_vertex_data, Buffer.create]

/-- C10: `Mesh::buffer<VertexType>()` returns the last element of the
buffer list unchanged, independent of the requested type parameter and
with no runtime check: on the concrete two-buffer mesh `meshTwoBufs`,
requesting the `vertex_data_t` view still returns the trailing
`point_data_t` buffer. -/
theorem mesh_buffer_last_c10 (m : Mesh) (t1 t2 : TypeTag) :
    Mesh.buffer t1 m = Mesh.buffer t2 m ∧
    Mesh.buffer t1 m = m.m_buffer.getLast? ∧
    Mesh.buffer TypeTag.vertex_data meshTwoBufs = some bufPD := by
  refine ⟨rfl, rfl, ?_⟩
  simp [Mesh.buffer, meshTwoBufs]

/-- C7: a mesh whose visible flag is false issues no GL calls at all
during `render` — in particular zero draw calls — whatever the dirty flags
and transform fields hold. -/
theorem mesh_invisible_no_draw_c7 (env : GLEnv) (g : Mat4) (m : Mesh) (s : GLState)
    (h : m.m_visible = false) :
    (Mesh.render env g m s).2.events = s.events := by
  simp [Mesh.render, h]

/-- Witness for C7 at a concrete invisible mesh. -/
theorem mesh_invisible_no_draw_c7_witness :
    meshInvisible.m_visible = false ∧
    (Mesh.render envSimple Mat4.identity meshInvisible GLState.init).2.events =
      GLState.init.events :=
  ⟨rfl, mesh_invisible_no_draw_c7 envSimple Mat4.identity meshInvisible GLState.init rfl⟩

/-- C6: `data()` and `add_vertex` set the dirty flag unconditionally; a
step that ends with the flag clear is either a step from an already-clean
buffer or an `upload`; `upload` on a dirty buffer replaces the whole GPU
copy with `m_data` and clears the flag, and on a clean buffer changes
nothing. -/
theorem buffer_dirty_c6 {V : Type} (b : BufState V) (f : List V → List V) (v : V)
    (op : BufOp V) (hop : (BufOp.step op b).m_dirty = false) :
    (Buffer.data f b).m_dirty = true ∧
    (Buffer.add_vertex v b).m_dirty = true ∧
    (b.m_dirty = false ∨ op = BufOp.upload) ∧
    Buffer.upload b =
      (if b.m_dirty then { b with gpu_data := b.m_data, m_dirty := false } else b) := by
  refine ⟨rfl, rfl, ?_, rfl⟩
  cases op with
  | mutate g => simp [BufOp.step, Buffer.data] at hop
  | addVertex w => simp [BufOp.step, Buffer.add_vertex] at hop
  | upload => exact Or.inr rfl

/-- Witness for C6: a fresh (dirty) buffer stepped by `upload`. -/
theorem buffer_dirty_c6_witness :
    (BufOp.step BufOp.upload (Buffer.create : BufState vertex_data_t)).m_dirty = false ∧
    ((Buffer.data id (Buffer.create : BufState vertex_data_t)).m_dirty = true ∧
     (Buffer.add_vertex vd0 (Buffer.create : BufState vertex_data_t)).m_dirty = true ∧
     ((Buffer.create : BufState vertex_data_t).m_dirty = false ∨
       (BufOp.upload : BufOp vertex_data_t) = BufOp.upload) ∧
     Buffer.upload (Buffer.create : BufState vertex_data_t) =
       (if (Buffer.create : BufState vertex_data_t).m_dirty then
          { (Buffer.create : BufState vertex_data_t) with
              gpu_data := (Buffer.create : BufState vertex_data_t).m_data, m_dirty := false }
        else (Buffer.create : BufState vertex_data_t))) :=
  ⟨rfl, buffer_dirty_c6 Buffer.create id vd0 BufOp.upload rfl⟩

/-- C9: rendering an invisible mesh changes neither the mesh (no field,
no dirty flag, no cache) nor the GL state; the stale caches are refreshed
on the first render once the mesh is visible again. -/
theorem mesh_invisible_state_c9 (env : GLEnv) (g : Mat4) (m : Mesh) (s : GLState)
    (h : m.m_visible = false) (htd : m.m_transform_dirty = true)
    (hsd : m.m_shader_dirty = true) :
    Mesh.render env g m s = (m, s) ∧
    (Mesh.render env g { m with m_visible := true } s).1.m_transform_dirty = false ∧
    (Mesh.render env g { m with m_visible := true } s).1.m_transform =
      (Mesh.build_transform m).m_transform ∧
    (Mesh.render env g { m with m_visible := true } s).1.m_shader_dirty = false ∧
    (Mesh.render env g { m with m_visible := true } s).1.m_shader_index_mvp =
      env.uniformLoc m.m_shader_program "u_mvp" := by
  refine ⟨by simp [Mesh.render, h], ?_, ?_, ?_, ?_⟩ <;>
    simp [Mesh.render, htd, hsd, Mesh.build_transform, Mesh.update_shader_locations]

/-- Witness for C9 at a concrete invisible mesh with both caches stale. -/
theorem mesh_invisible_state_c9_witness :
    (meshInvisible.m_visible = false ∧ meshInvisible.m_transform_dirty = true ∧
      meshInvisible.m_shader_dirty = true) ∧
    (Mesh.render envSimple Mat4.identity meshInvisible GLState.init =
        (meshInvisible, GLState.init) ∧
     (Mesh.render envSimple Mat4.identity { meshInvisible with m_visible := true }
         GLState.init).1.m_transform_dirty = false ∧
     (Mesh.render envSimple Mat4.identity { meshInvisible with m_visible := true }
         GLState.init).1.m_transform = (Mesh.build_transform meshInvisible).m_transform ∧
     (Mesh.render envSimple Mat4.identity { meshInvisible with m_visible := true }
         GLState.init).1.m_shader_dirty = false ∧
     (Mesh.render envSimple Mat4.identity { meshInvisible with m_visible := true }
         GLState.init).1.m_shader_index_mvp =
       envSimple.uniformLoc meshInvisible.m_shader_program "u_mvp") :=
  ⟨⟨rfl, rfl, rfl⟩,
   mesh_invisible_state_c9 envSimple Mat4.identity meshInvisible GLState.init rfl rfl rfl⟩

/-- C3 counterexample: on a mesh whose shader-dirty flag is clear,
`set_shader_program(7)` leaves the flag clear — the claim's "the
shader-dirty flag is true" fails. -/
theorem set_shader_program_c3_counterexample :
    (Mesh.set_shader_program 7 meshShaderClean).m_shader_dirty ≠ true := by
  decide

/-- C3 amended: `set_shader_program(p)` assigns the program handle and
leaves every other field — in particular the shader-dirty flag —
unchanged; consequently, when the flag was clear, the next `render()` of a
visible mesh keeps the stale cached uniform location instead of
recomputing it for the new program. -/
theorem set_shader_program_c3_amended (env : GLEnv) (g : Mat4) (m : Mesh)
    (s : GLState) (p : Nat) (hvis : m.m_visible = true)
    (hsd : m.m_shader_dirty = false) :
    Mesh.set_shader_program p m = { m with m_shader_program := p } ∧
    (Mesh.set_shader_program p m).m_shader_dirty = m.m_shader_dirty ∧
    (Mesh.render env g (Mesh.set_shader_program p m) s).1.m_shader_index_mvp =
      m.m_shader_index_mvp := by
  refine ⟨rfl, rfl, ?_⟩
  cases htd : m.m_transform_dirty <;>
    simp [Mesh.render, Mesh.set_shader_program, Mesh.build_transform, hvis, hsd, htd]

/-- Witness for the amended C3 at a concrete visible, shader-clean mesh. -/
theorem set_shader_program_c3_amended_witness :
    (meshShaderClean.m_visible = true ∧ meshShaderClean.m_shader_dirty = false) ∧
    (Mesh.set_shader_program 7 meshShaderClean =
        { meshShaderClean with m_shader_program := 7 } ∧
     (Mesh.set_shader_program 7 meshShaderClean).m_shader_dirty =
        meshShaderClean.m_shader_dirty ∧
     (Mesh.render envSimple Mat4.identity (Mesh.set_shader_program 7 meshShaderClean)
         GLState.init).1.m_shader_index_mvp = meshShaderClean.m_shader_index_mvp) :=
  ⟨⟨rfl, rfl⟩,
   set_shader_program_c3_amended envSimple Mat4.identity meshShaderClean GLState.init 7
     rfl rfl⟩

/-- C2 counterexample: on a concrete freshly generated buffer, `destroy()`
leaves the generation flag `true` (the claim says it resets it to
`false`), and the subsequent `render()` does not re-generate GPU storage —
it is a complete no-op (so `bind()` fails and no draw call is issued). -/
theorem buffer_destroy_c2_counterexample :
    bufDestroyedEx.1.m_generated = true ∧
    Buffer.render vertex_data_t.layout bufDestroyedEx.1 bufDestroyedEx.2 =
      (bufDestroyedEx.1, bufDestroyedEx.2) := by
  exact ⟨rfl, rfl⟩

/-- C2 amended: `destroy()` zeroes both handles and passes each non-zero
one to `glDeleteBuffers` (which releases the vertex-buffer object but
silently ignores the vertex-array name, so the VAO is not released), and
leaves the generation flag unchanged; hence on a generated buffer the
flag stays `true`, a later `render()` skips `generate()`, fails `bind()`
on the zero handle and performs nothing — the "GPU storage exists iff
generation flag is true" invariant is broken by `destroy()`, not
preserved. -/
theorem buffer_destroy_c2_amended {V : Type} (L : Layout) (b : BufState V)
    (s s2 : GLState) (hg : b.m_generated = true) (hnd : s.bufLive.Nodup)
    (hvbo : b.m_vbo ≠ 0) :
    (Buffer.destroy b s).1.m_vao = 0 ∧
    (Buffer.destroy b s).1.m_vbo = 0 ∧
    (Buffer.destroy b s).1.m_generated = b.m_generated ∧
    (Buffer.destroy b s).2.vaoLive = s.vaoLive ∧
    b.m_vbo ∉ (Buffer.destroy b s).2.bufLive ∧
    Buffer.render L (Buffer.destroy b s).1 s2 = ((Buffer.destroy b s).1, s2) := by
  refine ⟨?_, ?_, ?_, ?_, ?_, ?_⟩
  · simp [Buffer.destroy]
  · simp [Buffer.destroy]
  · simp [Buffer.destroy]
  · simp [Buffer.destroy, glDeleteBuffers]
    split <;> rfl
  · simp only [Buffer.destroy, hvbo, if_true, ite_not, glDeleteBuffers]
    split
    · exact fun hmem => hnd.not_mem_erase hmem
    · exact fun hmem => hnd.not_mem_erase (List.mem_of_mem_erase hmem)
  · simp [Buffer.render, Buffer.bind, Buffer.destroy, hg]

/-- Witness for the amended C2 at the concrete generated buffer. -/
theorem buffer_destroy_c2_amended_witness :
    (bufGenEx.1.m_generated = true ∧ bufGenEx.2.bufLive.Nodup ∧ bufGenEx.1.m_vbo ≠ 0) ∧
    ((Buffer.destroy bufGenEx.1 bufGenEx.2).1.m_vao = 0 ∧
     (Buffer.destroy bufGenEx.1 bufGenEx.2).1.m_vbo = 0 ∧
     (Buffer.destroy bufGenEx.1 bufGenEx.2).1.m_generated = bufGenEx.1.m_generated ∧
     (Buffer.destroy bufGenEx.1 bufGenEx.2).2.vaoLive = bufGenEx.2.vaoLive ∧
     bufGenEx.1.m_vbo ∉ (Buffer.destroy bufGenEx.1 bufGenEx.2).2.bufLive ∧
     Buffer.render vertex_data_t.layout (Buffer.destroy bufGenEx.1 bufGenEx.2).1
         GLState.init = ((Buffer.destroy bufGenEx.1 bufGenEx.2).1, GLState.init)) :=
  ⟨⟨rfl, by decide, by decide⟩,
   buffer_destroy_c2_amended vertex_data_t.layout bufGenEx.1 bufGenEx.2 GLState.init
     rfl (by decide) (by decide)⟩

theorem mesh_render_preserves_delete (env : GLEnv) (g : Mat4) (m : Mesh) (s : GLState) :
    (Mesh.render env g m s).1.m_delete = m.m_delete := by
  simp only [Mesh.render]
  split
  · rfl
  · split <;> split <;> rfl

theorem removeDeleted_fst (ms : List Mesh) (s : GLState) :
    (Renderer.removeDeleted ms s).1 = ms.filter (fun m => !m.m_delete) := by
  induction ms generalizing s with
  | nil => rfl
  | cons m rest ih =>
    cases hd : m.m_delete <;>
      simp [Renderer.removeDeleted, List.filter_cons, hd, ih]

theorem removeDeleted_snd (ms : List Mesh) (s : GLState) :
    (Renderer.removeDeleted ms s).2 =
      Renderer.freeDeleted (ms.filter (fun m => m.m_delete)) s := by
  induction ms generalizing s with
  | nil => rfl
  | cons m rest ih =>
    cases hd : m.m_delete <;>
      simp [Renderer.removeDeleted, Renderer.freeDeleted, List.filter_cons, hd, ih]

theorem renderMeshes_all_not_delete (env : GLEnv) (g : Mat4) (l : List Mesh)
    (s : GLState) (h : ∀ m ∈ l, m.m_delete = false) :
    ((Renderer.renderMeshes env g l s).1.all fun m' => !m'.m_delete) = true := by
  induction l generalizing s with
  | nil => rfl
  | cons m rest ih =>
    simp only [Renderer.renderMeshes, List.all_cons, Bool.and_eq_true]
    refine ⟨?_, ih _ fun x hx => h x (List.mem_cons_of_mem m hx)⟩
    simp [mesh_render_preserves_delete, h m (List.mem_cons_self m rest)]

/-- C4: `Renderer::render` first removes exactly the delete-flagged
meshes, freeing each one's GPU resources in encounter order
(`freeDeleted`), keeps the survivors in their original relative order
(`filter`), and then renders every survivor with the same global transform
in collection order (`renderMeshes`); afterwards no mesh of the collection
carries the delete flag. -/
theorem renderer_render_c4 (env : GLEnv) (g : Mat4) (ms : List Mesh) (s : GLState) :
    Renderer.render env g ms s =
      Renderer.renderMeshes env g (ms.filter fun m => !m.m_delete)
        (Renderer.freeDeleted (ms.filter fun m => m.m_delete) s) ∧
    ((Renderer.render env g ms s).1.all fun m' => !m'.m_delete) = true := by
  constructor
  · unfold Renderer.render
    rw [removeDeleted_fst, removeDeleted_snd]
  · unfold Renderer.render
    rw [removeDeleted_fst]
    refine renderMeshes_all_not_delete env g _ _ fun m hm => ?_
    have := (List.mem_filter.mp hm).2
    simpa using this

theorem strLenPos (t : String) (h : t ≠ "") : 0 < t.length := by
  cases t with
  | mk data =>
    cases data with
    | nil => simp at h
    | cons c cs => simp [String.length]

theorem loadShader_stderr (env : GLEnv) (t : Nat) (str : String) (s : GLState) :
    (ShaderProgram.loadShader env t str s).2.stderrLog =
      s.stderrLog ++ (if env.compileOk t str then "" else env.infoLog t str) := by
  simp only [ShaderProgram.loadShader, glCreateShader, GLState.fresh, glDeleteShader,
    GLState.addEvent]
  split <;> simp

theorem loadProgram_stderr (env : GLEnv) (v f g : Option String) (s : GLState) :
    (ShaderProgram.loadProgram env v f g s).2.stderrLog =
      s.stderrLog ++ stageLog env GL_VERTEX_SHADER v ++ stageLog env GL_FRAGMENT_SHADER f ++
        stageLog env GL_GEOMETRY_SHADER g := by
  cases v <;> cases f <;> cases g <;>
    simp [ShaderProgram.loadProgram, stageLog, loadShader_stderr, glCreateProgram,
      GLState.fresh, GLState.addEvent, glUseProgram, glDeleteShader,
      apply_ite GLState.stderrLog, String.append_assoc]

theorem loadProgram_fst_ne_zero (env : GLEnv) (v f g : Option String) (s : GLState) :
    (ShaderProgram.loadProgram env v f g s).1 ≠ 0 := by
  cases v <;> cases f <;> cases g <;>
    simp [ShaderProgram.loadProgram, glCreateProgram, GLState.fresh]

/-- C1 counterexample: on a driver for which every stage fails to compile,
`loadProgram` on concrete sources still returns a non-zero handle (the
fresh name from `glCreateProgram`), refuting "returns a null/zero program
handle". -/
theorem loadProgram_c1_counterexample :
    envFail.compileOk GL_VERTEX_SHADER "bad" = false ∧
    (ShaderProgram.loadProgram envFail (some "bad") (some "frag") none GLState.init).1 ≠ 0 := by
  exact ⟨rfl, by decide⟩

/-- C1 amended: when a stage fails to compile, `loadShader` writes the
driver's diagnostic to the error stream (strictly growing it whenever the
log is non-empty) and returns 0 for that stage, but `loadProgram` still
creates, links, activates and returns a fresh non-zero program handle —
the compile failure is never signalled through the return value (a valid
pair likewise yields a non-zero handle). -/
theorem loadProgram_c1_amended (env : GLEnv) (v f : String) (g : Option String)
    (s : GLState) (hc : env.compileOk GL_VERTEX_SHADER v = false)
    (hl : env.infoLog GL_VERTEX_SHADER v ≠ "") :
    (ShaderProgram.loadProgram env (some v) (some f) g s).1 ≠ 0 ∧
    s.stderrLog.length <
      (ShaderProgram.loadProgram env (some v) (some f) g s).2.stderrLog.length := by
  refine ⟨loadProgram_fst_ne_zero env (some v) (some f) g s, ?_⟩
  rw [loadProgram_stderr]
  have hv : stageLog env GL_VERTEX_SHADER (some v) = env.infoLog GL_VERTEX_SHADER v := by
    simp [stageLog, hc]
  have hlen : 0 < (env.infoLog GL_VERTEX_SHADER v).length := strLenPos _ hl
  simp [String.length_append, hv]
  omega

/-- Witness for the amended C1 at the concrete failing driver. -/
theorem loadProgram_c1_amended_witness :
    (envFail.compileOk GL_VERTEX_SHADER "bad" = false ∧
      envFail.infoLog GL_VERTEX_SHADER "bad" ≠ "") ∧
    ((ShaderProgram.loadProgram envFail (some "bad") (some "frag") none GLState.init).1 ≠ 0 ∧
     GLState.init.stderrLog.length <
       (ShaderProgram.loadProgram envFail (some "bad") (some "frag") none
           GLState.init).2.stderrLog.length) :=
  ⟨⟨rfl, by decide⟩,
   loadProgram_c1_amended envFail "bad" "frag" none GLState.init rfl (by decide)⟩

end renderer
